import Mathlib

/-!
Account service (golandvue/account)

A shallow embedding of the account service:

* `model/user.go`: the `User` record and its JSON form as fixed by the struct tags;
* `model/interfaces.go`: the service and repository interfaces, as records of functions;
* `handler/signup.go`: the `Signup` handler;
* `repository/pg_user_repository.go`: `Create` and `FindByID`;
* `service/user_service.go`: `UserService.Get`;
* the token service behind `model.TokenService`, whose implementation file is not part of
  the sources at hand and is modelled from the specification.

Conventions.  A Go pointer argument that the callee may write through (`u *User`, the
destination of `GetContext`) is modelled by passing the pointee in and returning the pointee
as the callee left it.  External collaborators (database, token store, the services behind
the interfaces) act on a state of type `σ` that is threaded through every call.  A Go
`(*T, error)` result is a pair of options, `nil` being `none`.  A Go `string` is a sequence
of bytes (`GoString`); a string literal stands for its UTF-8 bytes.  Log output is not
modelled.
-/

set_option autoImplicit false

namespace Account

/-! ## Go strings and UTF-8 -/

/-- A byte. -/
abbrev Byte := Fin 256

/-- A Go `string`: any sequence of bytes, valid UTF-8 or not. -/
structure GoString where
  bytes : List Byte
deriving DecidableEq

/-- The UTF-8 encoding of a character. -/
def utf8EncodeChar (c : Char) : List Byte :=
  let n := c.toNat
  if n < 0x80 then [Fin.ofNat n]
  else if n < 0x800 then [Fin.ofNat (0xC0 + n / 64), Fin.ofNat (0x80 + n % 64)]
  else if n < 0x10000 then
    [Fin.ofNat (0xE0 + n / 4096), Fin.ofNat (0x80 + n / 64 % 64), Fin.ofNat (0x80 + n % 64)]
  else
    [Fin.ofNat (0xF0 + n / 262144), Fin.ofNat (0x80 + n / 4096 % 64),
     Fin.ofNat (0x80 + n / 64 % 64), Fin.ofNat (0x80 + n % 64)]

/-- A string literal of the program text as a Go string: its UTF-8 bytes. -/
def GoString.ofString (s : String) : GoString := ⟨s.data.flatMap utf8EncodeChar⟩

instance : Coe String GoString := ⟨GoString.ofString⟩

instance : Append GoString := ⟨fun a b => ⟨a.bytes ++ b.bytes⟩⟩

/-- Whether a byte is a UTF-8 continuation byte (`0x80` to `0xBF`). -/
def continuation (b : Byte) : Bool := 0x80 ≤ b.val && b.val ≤ 0xBF

/-- The width of the well-formed UTF-8 sequence at the head of a byte string, after
`utf8.DecodeRune`: 1 to 4, and 0 where `DecodeRune` reports `(RuneError, 1)` (a byte that
cannot start a sequence, a missing or wrong continuation byte, an overlong form, a
surrogate, a value above U+10FFFF). -/
def runeLen : List Byte → Nat
  | [] => 0
  | b0 :: rest =>
    if b0.val < 0x80 then 1
    else if b0.val < 0xC2 then 0
    else if b0.val < 0xE0 then
      match rest with
      | b1 :: _ => if continuation b1 then 2 else 0
      | _ => 0
    else if b0.val < 0xF0 then
      match rest with
      | b1 :: b2 :: _ =>
        if (if b0.val = 0xE0 then 0xA0 else 0x80) ≤ b1.val
            ∧ b1.val ≤ (if b0.val = 0xED then 0x9F else 0xBF) ∧ continuation b2 then 3 else 0
      | _ => 0
    else if b0.val < 0xF5 then
      match rest with
      | b1 :: b2 :: b3 :: _ =>
        if (if b0.val = 0xF0 then 0x90 else 0x80) ≤ b1.val
            ∧ b1.val ≤ (if b0.val = 0xF4 then 0x8F else 0xBF) ∧ continuation b2
            ∧ continuation b3 then 4 else 0
      | _ => 0
    else 0

/-- The loop of `coerceUTF8`; the first argument counts the bytes still to copy of the
sequence in progress. -/
def coerceFrom : Nat → List Byte → List Byte
  | _, [] => []
  | k + 1, b :: rest => b :: coerceFrom k rest
  | 0, b :: rest =>
    if runeLen (b :: rest) = 0 then 0xEF :: 0xBF :: 0xBD :: coerceFrom 0 rest
    else b :: coerceFrom (runeLen (b :: rest) - 1) rest

/-- The loop of `ValidUTF8`, in step with `coerceFrom`. -/
def validFrom : Nat → List Byte → Bool
  | _, [] => true
  | k + 1, _ :: rest => validFrom k rest
  | 0, b :: rest => runeLen (b :: rest) ≠ 0 && validFrom (runeLen (b :: rest) - 1) rest

/-- The function `utf8.ValidString`: every sequence of the string is well formed. -/
def GoString.ValidUTF8 (s : GoString) : Bool := validFrom 0 s.bytes

/-- What `encoding/json` does to the bytes of a string on the way into and out of JSON
text: well-formed sequences are kept, and every byte at which `DecodeRune` reports an error
is replaced by U+FFFD (bytes `EF BF BD`). -/
def GoString.coerceUTF8 (s : GoString) : GoString := ⟨coerceFrom 0 s.bytes⟩

/-! ## Textual form of `uuid.UUID` (github.com/google/uuid) -/

/-- Lower-case hexadecimal digit of a nibble, as written by `hex.Encode`. -/
def hexDigit (n : Nat) : Byte :=
  if n < 10 then Fin.ofNat (48 + n) else Fin.ofNat (87 + n)

/-- Value of a hexadecimal digit, either case; `none` for any other byte. -/
def xval (c : Byte) : Option Nat :=
  let n := c.val
  if 48 ≤ n ∧ n ≤ 57 then some (n - 48)
  else if 97 ≤ n ∧ n ≤ 102 then some (n - 87)
  else if 65 ≤ n ∧ n ≤ 70 then some (n - 55)
  else none

/-- Two hexadecimal digits to a byte (`xtob` of the uuid package). -/
def xtob (c1 c2 : Byte) : Option Byte :=
  match xval c1, xval c2 with
  | some a, some b => some (Fin.ofNat (a * 16 + b))
  | _, _ => none

/-- Hexadecimal text of a byte string, two digits per byte. -/
def hexEncode : List Byte → List Byte
  | [] => []
  | b :: bs => hexDigit (b.val / 16) :: hexDigit (b.val % 16) :: hexEncode bs

/-- Inverse of `hexEncode`; fails on an odd length or a byte that is no digit. -/
def hexDecode : List Byte → Option (List Byte)
  | [] => some []
  | [_] => none
  | c1 :: c2 :: rest =>
    match xtob c1 c2, hexDecode rest with
    | some b, some bs => some (b :: bs)
    | _, _ => none

/-- The type `uuid.UUID`, an array of sixteen bytes. -/
structure UUID where
  bytes : List Byte
  size : bytes.length = 16
deriving DecidableEq

/-- The zero value `uuid.Nil` of a UUID. -/
def UUID.Nil : UUID := ⟨List.replicate 16 0, by decide⟩

/-- Sixteen bytes from thirty-two hexadecimal digits. -/
def UUID.ofHex (digits : List Byte) : Option UUID :=
  match hexDecode digits with
  | some bs => if h : bs.length = 16 then some ⟨bs, h⟩ else none
  | none => none

/-- The common tail of `uuid.Parse`: the text must carry a dash at offsets 8, 13, 18 and
23, and pairs of hexadecimal digits at the sixteen fixed offsets between them; bytes past
offset 35 are not looked at. -/
def UUID.parseDashed (cs : List Byte) : Option UUID :=
  if cs.get? 8 = some 45 ∧ cs.get? 13 = some 45 ∧ cs.get? 18 = some 45
      ∧ cs.get? 23 = some 45 then
    UUID.ofHex (cs.take 8 ++ (cs.drop 9).take 4 ++ (cs.drop 14).take 4
      ++ (cs.drop 19).take 4 ++ (cs.drop 24).take 12)
  else none

/-- ASCII lower case of a byte. -/
def asciiLower (b : Byte) : Byte :=
  if 65 ≤ b.val ∧ b.val ≤ 90 then Fin.ofNat (b.val + 32) else b

/-- The function `uuid.Parse` (`UnmarshalText` goes through it), by the length of the text:
36 bytes, the canonical form; 45 bytes, the canonical form after `urn:uuid:` in any case;
38 bytes, the canonical form in braces, read by dropping the first byte; 32 bytes, the
digits without dashes; any other length is an error. -/
def UUID.Parse (s : GoString) : Option UUID :=
  let cs := s.bytes
  if cs.length = 36 then UUID.parseDashed cs
  else if cs.length = 45 then
    if (cs.take 9).map asciiLower = (GoString.ofString "urn:uuid:").bytes then
      UUID.parseDashed (cs.drop 9)
    else none
  else if cs.length = 38 then UUID.parseDashed (cs.drop 1)
  else if cs.length = 32 then UUID.ofHex cs
  else none

/-- The method `UUID.String`: groups of 4, 2, 2, 2 and 6 bytes in hexadecimal, separated
by dashes. -/
def UUID.String (u : UUID) : GoString :=
  ⟨hexEncode (u.bytes.take 4) ++ 45 :: hexEncode ((u.bytes.drop 4).take 2)
    ++ 45 :: hexEncode ((u.bytes.drop 6).take 2) ++ 45 :: hexEncode ((u.bytes.drop 8).take 2)
    ++ 45 :: hexEncode (u.bytes.drop 10)⟩

/-! ## `model/user.go` -/

namespace model

/-- The struct `model.User`.  Its tags, used by `MarshalJSON` and `UnmarshalJSON` below:
`UID json:"uid"`, `Email json:"email"`, `Password json:"-"`, `Name json:"namr"`,
`ImageURl json:"imsgeUrl"`, `Website json:"website"`. -/
structure User where
  UID : UUID
  Email : GoString
  Password : GoString
  Name : GoString
  ImageURl : GoString
  Website : GoString
deriving DecidableEq

/-- The zero value `model.User{}`. -/
def User.zero : User := ⟨UUID.Nil, "", "", "", "", ""⟩

/-- Modelled from the spec: the struct `model.TokenPair`, whose declaration is not among
the sources: the two signed token strings returned to a caller (field names as in the
handler tests). -/
structure TokenPair where
  IDToken : GoString
  RefreshToken : GoString
deriving DecidableEq

/-- A JSON value as far as a member of the `User` object is concerned: the scalar kinds,
and `compound` for any array or object.  A string carries the bytes of its text, escapes
resolved. -/
inductive JValue where
  | null
  | string (s : GoString)
  | number (n : Int)
  | bool (b : Bool)
  | compound
deriving DecidableEq

/-- A JSON object: its members in order of appearance. -/
abbrev JObject := List (GoString × JValue)

/-- ASCII upper case of a byte. -/
def asciiUpper (b : Byte) : Byte :=
  if 97 ≤ b.val ∧ b.val ≤ 122 then Fin.ofNat (b.val - 32) else b

/-- The loop of `foldName`; the first argument counts the bytes to drop of a sequence
already folded. -/
def foldFrom : Nat → List Byte → List Byte
  | _, [] => []
  | k + 1, _ :: rest => foldFrom k rest
  | 0, b :: rest =>
    if b = 0xC5 ∧ rest.take 1 = [0xBF] then 0x53 :: foldFrom 1 rest
    else if b = 0xE2 ∧ rest.take 2 = [0x84, 0xAA] then 0x4B :: foldFrom 2 rest
    else asciiUpper b :: foldFrom 0 rest

/-- The folding under which `encoding/json` matches an incoming key against a field name
(Unicode simple case folding), as far as it can reach an ASCII name: an ASCII letter folds
to its upper case, U+017F (long s, bytes `C5 BF`) folds to `S` and U+212A (Kelvin sign,
bytes `E2 84 AA`) folds to `K`; no other character folds to an ASCII one, and those are
left as they are. -/
def foldName (s : GoString) : GoString := ⟨foldFrom 0 s.bytes⟩

/-- The object `encoding/json` writes for a `User`: one member per tagged field, in field
order, under the tag name; `Password` (tag `-`) is skipped; the UID is written through its
text form; in every string written, bytes that are not valid UTF-8 are replaced by
U+FFFD. -/
def User.MarshalJSON (u : User) : JObject :=
  [("uid", .string u.UID.String.coerceUTF8), ("email", .string u.Email.coerceUTF8),
   ("namr", .string u.Name.coerceUTF8), ("imsgeUrl", .string u.ImageURl.coerceUTF8),
   ("website", .string u.Website.coerceUTF8)]

/-- The state of a decoding: the destination so far and the first type error saved
(`decodeState.savedError`). -/
structure Decoding where
  dest : User
  savedError : Option GoString

/-- The method `decodeState.saveError`: only the first error is kept. -/
def Decoding.saveError (d : Decoding) (e : GoString) : Decoding :=
  match d.savedError with
  | none => { d with savedError := some e }
  | some _ => d

/-- Decoding of a JSON value into a string field: `null` leaves the field alone; a string
is stored, bytes that are not valid UTF-8 replaced by U+FFFD; anything else is a type
error, which is saved while the field is left alone. -/
def decodeString (d : Decoding) (set : User → GoString → User) (v : JValue) : Decoding :=
  match v with
  | .null => d
  | .string s => { d with dest := set d.dest s.coerceUTF8 }
  | _ => d.saveError "json: cannot unmarshal value into Go struct field of type string"

/-- Decoding of a JSON value into the UID field: `null` leaves the field alone; a string
goes through `UUID.UnmarshalText`, whose error ends the decoding at once; anything else is
a type error, which is saved while the field is left alone. -/
def decodeUUID (d : Decoding) (v : JValue) : Except GoString Decoding :=
  match v with
  | .null => .ok d
  | .string s =>
    match UUID.Parse s.coerceUTF8 with
    | some id => .ok { d with dest := { d.dest with UID := id } }
    | none => .error "invalid UUID format"
  | _ => .ok (d.saveError "json: cannot unmarshal value into Go struct field of type uuid.UUID")

/-- One member of an incoming object applied to the decoding: the key selects the field
whose tag name it matches under `foldName`; a key that matches no tag (among them every
spelling of `password`, whose field carries the tag `-`) is skipped. -/
def User.setMember (d : Decoding) (key : GoString) (v : JValue) : Except GoString Decoding :=
  let k := foldName key.coerceUTF8
  if k = foldName "uid" then decodeUUID d v
  else if k = foldName "email" then
    .ok (decodeString d (fun u x => { u with Email := x }) v)
  else if k = foldName "namr" then
    .ok (decodeString d (fun u x => { u with Name := x }) v)
  else if k = foldName "imsgeUrl" then
    .ok (decodeString d (fun u x => { u with ImageURl := x }) v)
  else if k = foldName "website" then
    .ok (decodeString d (fun u x => { u with Website := x }) v)
  else .ok d

/-- The loop of `UnmarshalJSON` over the members, from left to right. -/
def User.decodeMembers (d : Decoding) : JObject → User × Option GoString
  | [] => (d.dest, d.savedError)
  | (k, v) :: rest =>
    match User.setMember d k v with
    | .ok d2 => User.decodeMembers d2 rest
    | .error e => (d.dest, some e)

/-- What `json.Unmarshal` does with an object and a destination `User`: the members are
applied from left to right; a type error is saved and the decoding goes on with the next
member; an error of `UnmarshalText` ends it.  The result is the destination as left and the
error returned, `none` for nil. -/
def User.UnmarshalJSON (dest : User) (obj : JObject) : User × Option GoString :=
  User.decodeMembers { dest := dest, savedError := none } obj

/-! ## Errors and `model/interfaces.go` -/

/-- Modelled from the spec: the package `model/apperrors`, which is not among the sources.
Its constructors `NewAuthorization(reason)`, `NewConflict(name, value)`, `NewInternal()` and
`NewNotFound(name, value)` give the error kinds of the design (Authorization, Conflict,
Internal, NotFound).  The type stands for Go `error` values as the code meets them;
`foreign` is an error value made elsewhere (`fmt.Errorf`, a driver error handed
through). -/
inductive Error where
  | Authorization (reason : GoString)
  | Conflict (name value : GoString)
  | Internal
  | NotFound (name value : GoString)
  | foreign (msg : GoString)
deriving DecidableEq

/-- A `context.Context` value.  The code only hands contexts on, so a context is
represented by its identity. -/
structure Context where
  id : Nat
deriving DecidableEq

/-- The interface `model.UserService`.  `Signup` and `Signin` receive `u *User` and return
the pointee as they leave it. -/
structure UserService (σ : Type) where
  Get : σ → Context → UUID → σ × Option User × Option Error
  Signup : σ → Context → User → σ × User × Option Error
  Signin : σ → Context → User → σ × User × Option Error

/-- The interface `model.UserRepository`. -/
structure UserRepository (σ : Type) where
  Create : σ → Context → User → σ × User × Option Error
  FindByEmail : σ → Context → GoString → σ × Option User × Option Error
  FindByID : σ → Context → UUID → σ × Option User × Option Error

/-- The interface `model.TokenService`. -/
structure TokenService (σ : Type) where
  NewPairFromUser : σ → Context → User → GoString → σ × Option TokenPair × Option Error
  ValidateIDToken : σ → GoString → σ × Option User × Option Error

/-- The interface `model.TokenRepository`; `expiresIn` is counted in whole seconds. -/
structure TokenRepository (σ : Type) where
  SetRefreshToken : σ → Context → GoString → GoString → Int → σ × Option Error
  DeleteRefreshToken : σ → Context → GoString → GoString → σ × Option Error

end model

/-! ## `handler/signup.go` -/

namespace handler

open model

/-- The request type `signupReq`. -/
structure signupReq where
  Email : GoString
  Password : GoString
deriving DecidableEq

/-- What the handler uses of `*gin.Context`: the request, with its context. -/
structure GinContext where
  RequestContext : Context
  ContentType : GoString
  Body : GoString
deriving DecidableEq

/-- A value placed in a `gin.H` response map by `Signup`. -/
inductive Payload where
  | err (e : Error)
  | tokens (t : Option TokenPair)
deriving DecidableEq

/-- A call `c.JSON(status, gin.H ...)`: the status and the members of the map. -/
structure Response where
  status : Nat
  body : List (GoString × Payload)
deriving DecidableEq

/-- A call the handler makes on one of its services, with the arguments as passed (for a
pointer argument, the pointee at the time of the call). -/
inductive Call where
  | Signup (ctx : Context) (u : User)
  | NewPairFromUser (ctx : Context) (u : User) (prevTokenID : GoString)
deriving DecidableEq

/-- The struct `Handler`, with the two fields `Signup` uses. -/
structure Handler (σ : Type) where
  UserService : model.UserService σ
  TokenService : model.TokenService σ

/-- One run of `Signup`: the state of the collaborators afterwards, the service calls in
order, and the response written by `Signup` itself (`none` when it returns without calling
`c.JSON`, which happens when `bindData` reports failure, having dealt with the response on
its own). -/
structure SignupRun (σ : Type) where
  state : σ
  calls : List Call
  response : Option Response

/-- The literal `&model.User{Email: req.Email, Password: req.Password}` with which `Signup`
initialises `u`: the remaining fields are zero. -/
def newUser (req : signupReq) : User :=
  { User.zero with Email := req.Email, Password := req.Password }

/-- The constant `http.StatusCreated`. -/
def StatusCreated : Nat := 201

/-- The method `Handler.Signup`.  Two helpers of the repository that are not among the
sources are parameters: `Status` is `apperrors.Status`, and `bindData` is the binding
helper, giving the bound request when it returns `true` and `none` when it returns
`false`. -/
def Handler.Signup {σ : Type} (Status : Error → Nat) (bindData : GinContext → Option signupReq)
    (h : Handler σ) (w : σ) (c : GinContext) : SignupRun σ :=
  match bindData c with
  | none => { state := w, calls := [], response := none }
  | some req =>
    let u : User := newUser req
    let ctx := c.RequestContext
    match h.UserService.Signup w ctx u with
    | (w1, _, some err) =>
      { state := w1, calls := [.Signup ctx u],
        response := some { status := Status err, body := [("error", .err err)] } }
    | (w1, u1, none) =>
      match h.TokenService.NewPairFromUser w1 ctx u1 "" with
      | (w2, _, some err) =>
        { state := w2, calls := [.Signup ctx u, .NewPairFromUser ctx u1 ""],
          response := some { status := Status err, body := [("error", .err err)] } }
      | (w2, tokens, none) =>
        { state := w2, calls := [.Signup ctx u, .NewPairFromUser ctx u1 ""],
          response := some { status := StatusCreated, body := [("tokens", .tokens tokens)] } }

end handler

/-! ## `repository/pg_user_repository.go` -/

namespace repository

open model

/-- An error returned by the database layer: a `*pq.Error` with its code, or any other
error value (no rows, scan failure, connection failure, cancelled context). -/
inductive DBError where
  | pq (Code : GoString)
  | other (msg : GoString)
deriving DecidableEq

/-- A query argument. -/
inductive Arg where
  | text (s : GoString)
  | uuid (u : UUID)
deriving DecidableEq

/-- What the repository uses of `*sqlx.DB`: `GetContext(ctx, dest, query, args...)` runs the
query and scans the first row into `dest`; it returns the destination as it leaves it and
the error. -/
structure DB (σ : Type) where
  GetContext : σ → Context → User → GoString → List Arg → σ × User × Option DBError

/-- The struct `pgUserRepository`. -/
structure pgUserRepository (σ : Type) where
  DB : DB σ

/-- The query text of `Create`. -/
def createQuery : GoString := "INSERT INTO users (email, password) VALUES ($1, $2) RETURNING *"

/-- The query text of `FindByID`. -/
def findByIDQuery : GoString := "SELECT * FROM users WHERE uid=$1"

/-- The method `pgUserRepository.Create`.  `Name` is `pq.ErrorCode.Name`, the driver table
from error codes to condition names. -/
def pgUserRepository.Create {σ : Type} (Name : GoString → GoString) (r : pgUserRepository σ)
    (w : σ) (ctx : Context) (u : User) : σ × User × Option Error :=
  let query := createQuery
  match r.DB.GetContext w ctx u query [.text u.Email, .text u.Password] with
  | (w1, u1, some (.pq code)) =>
    if Name code = "unique_violation" then (w1, u1, some (.Conflict "email" u1.Email))
    else (w1, u1, some .Internal)
  | (w1, u1, some (.other _)) => (w1, u1, some .Internal)
  | (w1, u1, none) => (w1, u1, none)

/-- The method `pgUserRepository.FindByID`. -/
def pgUserRepository.FindByID {σ : Type} (r : pgUserRepository σ) (w : σ) (ctx : Context)
    (uid : UUID) : σ × Option User × Option Error :=
  let user := User.zero
  let query := findByIDQuery
  match r.DB.GetContext w ctx user query [.uuid uid] with
  | (w1, user1, some _) => (w1, some user1, some (.NotFound "uid" uid.String))
  | (w1, user1, none) => (w1, some user1, none)

/-- The constructor `NewUserRepository`.  The sources define `Create` and `FindByID` on
`pgUserRepository`; the third method of the interface is taken as given. -/
def NewUserRepository {σ : Type} (Name : GoString → GoString)
    (FindByEmail : σ → Context → GoString → σ × Option User × Option Error) (db : DB σ) :
    model.UserRepository σ :=
  { Create := pgUserRepository.Create Name { DB := db },
    FindByEmail := FindByEmail,
    FindByID := pgUserRepository.FindByID { DB := db } }

end repository

/-! ## `service/user_service.go` -/

namespace service

open model

/-- The struct `service.UserService`. -/
structure UserService (σ : Type) where
  UserRepository : model.UserRepository σ

/-- The method `UserService.Get`. -/
def UserService.Get {σ : Type} (s : UserService σ) (w : σ) (ctx : Context) (uid : UUID) :
    σ × Option User × Option Error :=
  match s.UserRepository.FindByID w ctx uid with
  | (w1, u, err) => (w1, u, err)

/-! ## The token service (specification sections 3 and 4.3) -/

/-- Modelled from the spec: the identity-token claims (`IDTokenCustomClaims` in the tests),
whose declaration is not among the sources: a copy of the public fields of the user, the
password excluded, with issued-at and expires-at in whole seconds. -/
structure IDTokenCustomClaims where
  User : User
  IssuedAt : Int
  ExpiresAt : Int
deriving DecidableEq

/-- Modelled from the spec: the refresh-token claims (`RefreshTokenCastomClaims` in the
tests), whose declaration is not among the sources: user id, token identifier, issued-at
and expires-at. -/
structure RefreshTokenCastomClaims where
  UID : UUID
  ID : GoString
  IssuedAt : Int
  ExpiresAt : Int
deriving DecidableEq

/-- Modelled from the spec: the token service with its configuration (`TSConfig` in the
tests), whose declaration is not among the sources.  The key material appears through the
two signing operations it supports: `signIDToken` signs identity claims with the private
key, `signRefreshToken` signs refresh claims with the symmetric secret; each gives the
token string, or `none` on a signing failure. -/
structure TokenService (σ : Type) where
  TokenRepository : model.TokenRepository σ
  signIDToken : IDTokenCustomClaims → Option GoString
  signRefreshToken : RefreshTokenCastomClaims → Option GoString
  IDExpirationSecs : Int
  RefreshExpirationSecs : Int

/-- A call on the token repository during an issuance, with its arguments and the error it
returned. -/
inductive RepoCall where
  | SetRefreshToken (ctx : Context) (userID tokenID : GoString) (expiresIn : Int)
      (err : Option Error)
  | DeleteRefreshToken (ctx : Context) (userID prevTokenID : GoString) (err : Option Error)
deriving DecidableEq

/-- One run of `NewPairFromUser`: the state of the store afterwards, the calls made on the
store in order, and the Go result `(*TokenPair, error)`. -/
structure IssueRun (σ : Type) where
  state : σ
  calls : List RepoCall
  pair : Option TokenPair
  err : Option Error

/-- Modelled from the spec: step 1 of token issuance, the identity claims of a user at
time `now`. -/
def TokenService.idClaims {σ : Type} (s : TokenService σ) (now : Int) (u : User) :
    IDTokenCustomClaims :=
  { User := { u with Password := "" }, IssuedAt := now, ExpiresAt := now + s.IDExpirationSecs }

/-- Modelled from the spec: step 4 of token issuance, the refresh claims of a user at time
`now` with the fresh identifier `tokenID`. -/
def TokenService.refreshClaims {σ : Type} (s : TokenService σ) (now : Int) (tokenID : GoString)
    (u : User) : RefreshTokenCastomClaims :=
  { UID := u.UID, ID := tokenID, IssuedAt := now, ExpiresAt := now + s.RefreshExpirationSecs }

/-- Modelled from the spec: `NewPairFromUser` (`IssueTokenPair` of section 4.3), whose
implementation file is not among the sources.  `now` is the clock reading and `tokenID`
the random identifier drawn for this issuance.  Steps: build and sign the identity claims;
build and sign the refresh claims; register the new identifier with its remaining time to
live, a failure ending the operation with an Internal error; if a previous identifier was
given, delete it, a failure of the deletion being ignored; return the pair. -/
def TokenService.NewPairFromUser {σ : Type} (s : TokenService σ) (now : Int)
    (tokenID : GoString) (w : σ) (ctx : Context) (u : User) (prevTokenID : GoString) :
    IssueRun σ :=
  match s.signIDToken (s.idClaims now u) with
  | none => { state := w, calls := [], pair := none, err := some .Internal }
  | some idToken =>
    let rc := s.refreshClaims now tokenID u
    match s.signRefreshToken rc with
    | none => { state := w, calls := [], pair := none, err := some .Internal }
    | some refreshToken =>
      let ttl := rc.ExpiresAt - now
      match s.TokenRepository.SetRefreshToken w ctx u.UID.String tokenID ttl with
      | (w1, some e) =>
        { state := w1, calls := [.SetRefreshToken ctx u.UID.String tokenID ttl (some e)],
          pair := none, err := some .Internal }
      | (w1, none) =>
        if prevTokenID ≠ "" then
          match s.TokenRepository.DeleteRefreshToken w1 ctx u.UID.String prevTokenID with
          | (w2, e2) =>
            { state := w2,
              calls := [.SetRefreshToken ctx u.UID.String tokenID ttl none,
                        .DeleteRefreshToken ctx u.UID.String prevTokenID e2],
              pair := some { IDToken := idToken, RefreshToken := refreshToken },
              err := none }
        else
          { state := w1, calls := [.SetRefreshToken ctx u.UID.String tokenID ttl none],
            pair := some { IDToken := idToken, RefreshToken := refreshToken },
            err := none }

/-- Whether a store call is a `DeleteRefreshToken`. -/
def RepoCall.isDelete : RepoCall → Bool
  | .DeleteRefreshToken _ _ _ _ => true
  | _ => false

end service

/-! ## Concrete collaborators, used to instantiate the results below -/

namespace sample

open model

/-- A user id. -/
def uid : UUID := ⟨[1, 35, 69, 103, 137, 171, 205, 239, 1, 35, 69, 103, 137, 171, 205, 239],
  by decide⟩

/-- The user of the token-service tests. -/
def bob : User :=
  { UID := uid, Email := "bob@bob.com", Password := "blarghedymcblarghface",
    Name := "", ImageURl := "", Website := "" }

/-- A user whose email is the three bytes `61 FF 62`, which are not valid UTF-8. -/
def rawUser : User := { bob with Email := ⟨[0x61, 0xFF, 0x62]⟩ }

/-- The context `context.Background()`. -/
def background : Context := ⟨0⟩

/-- A token store kept in memory: the state is the list of live (user id, token id)
entries. -/
def memoryStore : TokenRepository (List (GoString × GoString)) :=
  { SetRefreshToken := fun w _ userID tokenID _ => ((userID, tokenID) :: w, none),
    DeleteRefreshToken := fun w _ userID prevTokenID =>
      (w.filter fun e => decide (e ≠ (userID, prevTokenID)), none) }

/-- A token store whose `SetRefreshToken` fails. -/
def brokenStore : TokenRepository (List (GoString × GoString)) :=
  { SetRefreshToken := fun w _ _ _ _ => (w, some (.foreign "Error setting refresh token")),
    DeleteRefreshToken := fun w _ _ _ => (w, none) }

/-- A token service over a given store, with the lifetimes of the tests and signing that
succeeds. -/
def tokenService (repo : TokenRepository (List (GoString × GoString))) :
    service.TokenService (List (GoString × GoString)) :=
  { TokenRepository := repo,
    signIDToken := fun c => some ("id:" ++ c.User.Email),
    signRefreshToken := fun c => some ("refresh:" ++ c.ID),
    IDExpirationSecs := 15 * 60,
    RefreshExpirationSecs := 3 * 24 * 2600 }

/-- A token service whose private key cannot sign. -/
def keylessTokenService : service.TokenService (List (GoString × GoString)) :=
  { tokenService memoryStore with signIDToken := fun _ => none }

/-- A status mapping for errors. -/
def status : Error → Nat
  | .Authorization _ => 401
  | .Conflict _ _ => 409
  | .Internal => 500
  | .NotFound _ _ => 404
  | .foreign _ => 500

/-- A binding helper: a request with an empty body is rejected, any other binds to the
credentials of the handler tests. -/
def bindData (c : handler.GinContext) : Option handler.signupReq :=
  if c.Body = "" then none else some ⟨"bob@bob.com", "pwworksgreat123"⟩

/-- A request that binds. -/
def goodRequest : handler.GinContext :=
  { RequestContext := background, ContentType := "application/json", Body := "credentials" }

/-- A request that does not bind. -/
def badRequest : handler.GinContext :=
  { RequestContext := background, ContentType := "application/json", Body := "" }

/-- A handler whose user service stores the user and fills in the id, and whose token
service returns a fixed pair; the state counts the users created. -/
def handlerOK : handler.Handler Nat :=
  { UserService :=
      { Get := fun w _ _ => (w, none, some (.NotFound "uid" "")),
        Signup := fun w _ u => (w + 1, { u with UID := uid }, none),
        Signin := fun w _ u => (w, u, none) },
    TokenService :=
      { NewPairFromUser := fun w _ _ _ => (w, some ⟨"idToken", "refreshToken"⟩, none),
        ValidateIDToken := fun w _ => (w, none, some (.Authorization "invalid token")) } }

/-- A handler whose user service reports that the email is taken. -/
def handlerConflict : handler.Handler Nat :=
  { handlerOK with
    UserService :=
      { handlerOK.UserService with
        Signup := fun w _ u => (w, u, some (.Conflict "email" u.Email)) } }

/-- A handler whose token service fails. -/
def handlerNoTokens : handler.Handler Nat :=
  { handlerOK with
    TokenService :=
      { handlerOK.TokenService with
        NewPairFromUser := fun w _ _ _ => (w, none, some .Internal) } }

/-- The driver table restricted to the code of interest. -/
def codeName (code : GoString) : GoString :=
  if code = "23505" then "unique_violation" else "internal_error"

/-- A database in which the email is already taken. -/
def takenDB : repository.DB Unit :=
  { GetContext := fun w _ dest _ _ => (w, dest, some (.pq "23505")) }

/-- A database in which the statement succeeds and the row read back is `bob`. -/
def goodDB : repository.DB Unit :=
  { GetContext := fun w _ _ _ _ => (w, bob, none) }

/-- A database whose row has a NULL in a text column.  The scan is given the addresses of
the fields of the destination and stores the columns one by one; it has stored the columns
before the NULL (here uid, email and password) when the conversion of the NULL to a Go
string fails, and `GetContext` returns that error. -/
def nullNameDB : repository.DB Unit :=
  { GetContext := fun w _ dest _ _ =>
      (w, { dest with UID := uid, Email := "bob@bob.com", Password := "hash" },
       some (.other "sql: Scan error on column index 3: converting NULL to string is unsupported")) }

/-- A database that cannot be reached; the destination is left as it was. -/
def downDB : repository.DB Unit :=
  { GetContext := fun w _ dest _ _ => (w, dest, some (.other "connection refused")) }

end sample


/-! ## Lemmas on UTF-8 and on the UUID text form -/

/-- A string that is valid UTF-8 passes through the JSON encoder and decoder unchanged. -/
theorem coerceFrom_of_valid (k : Nat) (bs : List Byte) (h : validFrom k bs = true) :
    coerceFrom k bs = bs := by
  induction bs generalizing k with
  | nil => cases k <;> rfl
  | cons b rest ih =>
    cases k with
    | succ k =>
      simp only [validFrom] at h
      simp [coerceFrom, ih k h]
    | zero =>
      simp only [validFrom, Bool.and_eq_true, decide_eq_true_eq] at h
      simp [coerceFrom, h.1, ih _ h.2]

theorem coerceUTF8_of_valid (s : GoString) (h : s.ValidUTF8 = true) : s.coerceUTF8 = s := by
  cases s with
  | mk bs => simp [GoString.coerceUTF8, coerceFrom_of_valid 0 bs h]

theorem validFrom_ascii (bs : List Byte) (h : ∀ b ∈ bs, b.val < 0x80) :
    validFrom 0 bs = true := by
  induction bs with
  | nil => rfl
  | cons b rest ih =>
    have hb : b.val < 0x80 := h b (List.mem_cons_self _ _)
    have hr : runeLen (b :: rest) = 1 := by simp [runeLen, hb]
    simp [validFrom, hr, ih fun c hc => h c (List.mem_cons_of_mem _ hc)]

theorem hexDigit_ascii (n : Nat) (h : n < 16) : (hexDigit n).val < 0x80 := by
  interval_cases n <;> decide

theorem hexEncode_ascii (bs : List Byte) : ∀ b ∈ hexEncode bs, b.val < 0x80 := by
  induction bs with
  | nil => simp [hexEncode]
  | cons a rest ih =>
    intro b hb
    simp only [hexEncode, List.mem_cons] at hb
    rcases hb with hb | hb | hb
    · subst hb
      exact hexDigit_ascii _ (by omega)
    · subst hb
      exact hexDigit_ascii _ (by omega)
    · exact ih b hb

/-- The text form of a UUID is ASCII. -/
theorem valid_string_uuid (u : UUID) : u.String.ValidUTF8 = true := by
  apply validFrom_ascii
  intro b hb
  simp only [UUID.String, List.mem_append, List.mem_cons, or_assoc] at hb
  rcases hb with hb | hb | hb | hb | hb | hb | hb | hb | hb <;>
    first
    | exact hexEncode_ascii _ b hb
    | (subst hb; decide)

theorem xval_hexDigit (n : Nat) (h : n < 16) : xval (hexDigit n) = some n := by
  interval_cases n <;> decide

theorem xtob_hexDigit (b : Byte) :
    xtob (hexDigit (b.val / 16)) (hexDigit (b.val % 16)) = some b := by
  have h1 : b.val / 16 < 16 := by omega
  have h2 : b.val % 16 < 16 := by omega
  simp only [xtob, xval_hexDigit _ h1, xval_hexDigit _ h2]
  congr 1
  apply Fin.ext
  simp [Fin.ofNat]
  omega

theorem hexDecode_hexEncode (bs : List Byte) : hexDecode (hexEncode bs) = some bs := by
  induction bs with
  | nil => rfl
  | cons b bs ih => simp [hexEncode, hexDecode, xtob_hexDigit, ih]

/-- Parsing the text form of a UUID gives the UUID back. -/
theorem parse_string_uuid (u : UUID) : UUID.Parse u.String = some u := by
  obtain ⟨bs, hs⟩ := u
  match bs, hs with
  | [b0, b1, b2, b3, b4, b5, b6, b7, b8, b9, b10, b11, b12, b13, b14, b15], _ =>
    simp only [UUID.Parse, UUID.parseDashed, UUID.ofHex, UUID.String, hexEncode, List.take,
      List.drop, List.cons_append, List.nil_append, List.length_cons, List.length_nil,
      List.get?]
    simp [hexDecode, xtob_hexDigit]

/-! ## The JSON form of `User` -/

namespace model

/-- C4, as worded, fails: a `User` whose email is not valid UTF-8 does not come back from
its JSON form; the byte `FF` has become U+FFFD (bytes `EF BF BD`). -/
theorem user_json_round_trip_replaces_invalid_utf8 :
    (User.UnmarshalJSON User.zero sample.rawUser.MarshalJSON).1.Email
      = ⟨[0x61, 0xEF, 0xBF, 0xBD, 0x62]⟩ ∧
    (User.UnmarshalJSON User.zero sample.rawUser.MarshalJSON).1.Email
      ≠ sample.rawUser.Email ∧
    (User.UnmarshalJSON User.zero sample.rawUser.MarshalJSON).2 = none := by
  decide

/-- C4, amended.  For every user, the JSON object written under the struct tags has no
member that the decoder would take for `password` in any spelling, and does not depend on
the password at all.  For every user whose Email, Name, ImageURl and Website are valid
UTF-8, decoding that object into a fresh `User` gives, without error, a user with the same
UID, Email, Name, ImageURl and Website and an empty Password. -/
theorem user_json_omits_password_and_round_trips_valid_utf8 (u : User) :
    (∀ kv ∈ u.MarshalJSON, foldName kv.1.coerceUTF8 ≠ foldName "password") ∧
    (∀ p : GoString, ({ u with Password := p } : User).MarshalJSON = u.MarshalJSON) ∧
    (u.Email.ValidUTF8 = true → u.Name.ValidUTF8 = true → u.ImageURl.ValidUTF8 = true →
      u.Website.ValidUTF8 = true →
      User.UnmarshalJSON User.zero u.MarshalJSON = ({ u with Password := "" }, none)) := by
  refine ⟨?_, ?_, ?_⟩
  · intro kv hkv
    simp only [User.MarshalJSON, List.mem_cons, List.mem_singleton, List.not_mem_nil,
      or_false] at hkv
    rcases hkv with h | h | h | h | h <;> subst h <;> dsimp only <;> decide
  · intro p
    rfl
  · intro hE hN hI hW
    have k1 : foldName (GoString.coerceUTF8 "uid") = foldName "uid" := by decide
    have k2 : foldName (GoString.coerceUTF8 "email") = foldName "email" := by decide
    have k3 : foldName (GoString.coerceUTF8 "namr") = foldName "namr" := by decide
    have k4 : foldName (GoString.coerceUTF8 "imsgeUrl") = foldName "imsgeUrl" := by decide
    have k5 : foldName (GoString.coerceUTF8 "website") = foldName "website" := by decide
    have n21 : foldName "email" ≠ foldName "uid" := by decide
    have n31 : foldName "namr" ≠ foldName "uid" := by decide
    have n32 : foldName "namr" ≠ foldName "email" := by decide
    have n41 : foldName "imsgeUrl" ≠ foldName "uid" := by decide
    have n42 : foldName "imsgeUrl" ≠ foldName "email" := by decide
    have n43 : foldName "imsgeUrl" ≠ foldName "namr" := by decide
    have n51 : foldName "website" ≠ foldName "uid" := by decide
    have n52 : foldName "website" ≠ foldName "email" := by decide
    have n53 : foldName "website" ≠ foldName "namr" := by decide
    have n54 : foldName "website" ≠ foldName "imsgeUrl" := by decide
    have cU := coerceUTF8_of_valid _ (valid_string_uuid u.UID)
    have cE := coerceUTF8_of_valid _ hE
    have cN := coerceUTF8_of_valid _ hN
    have cI := coerceUTF8_of_valid _ hI
    have cW := coerceUTF8_of_valid _ hW
    simp [User.MarshalJSON, User.UnmarshalJSON, User.decodeMembers, User.setMember,
      decodeUUID, decodeString, parse_string_uuid, k1, k2, k3, k4, k5, n21, n31, n32, n41,
      n42, n43, n51, n52, n53, n54, cU, cE, cN, cI, cW, User.zero]

/-- Instance of C4 amended: the user `sample.bob`, whose fields are ASCII. -/
theorem user_json_round_trips_witness :
    sample.bob.Email.ValidUTF8 = true ∧ sample.bob.Name.ValidUTF8 = true ∧
    sample.bob.ImageURl.ValidUTF8 = true ∧ sample.bob.Website.ValidUTF8 = true ∧
    User.UnmarshalJSON User.zero sample.bob.MarshalJSON
      = ({ sample.bob with Password := "" }, none) :=
  ⟨by decide, by decide, by decide, by decide,
   (user_json_omits_password_and_round_trips_valid_utf8 sample.bob).2.2
     (by decide) (by decide) (by decide) (by decide)⟩

end model

/-! ## The `Signup` handler -/

namespace handler

open model

/-- The run of `Signup` when binding fails. -/
theorem Signup_unbound {σ : Type} (Status : Error → Nat)
    (bindData : GinContext → Option signupReq) (h : Handler σ) (w : σ) (c : GinContext)
    (hb : bindData c = none) :
    h.Signup Status bindData w c = { state := w, calls := [], response := none } := by
  simp [Handler.Signup, hb]

/-- The run of `Signup` when `UserService.Signup` returns an error. -/
theorem Signup_rejected {σ : Type} (Status : Error → Nat)
    (bindData : GinContext → Option signupReq) (h : Handler σ) (w : σ) (c : GinContext)
    (req : signupReq) (w1 : σ) (u1 : User) (e : Error) (hb : bindData c = some req)
    (hS : h.UserService.Signup w c.RequestContext (newUser req) = (w1, u1, some e)) :
    h.Signup Status bindData w c =
      { state := w1, calls := [Call.Signup c.RequestContext (newUser req)],
        response := some { status := Status e, body := [("error", Payload.err e)] } } := by
  simp [Handler.Signup, hb, hS]

/-- The run of `Signup` when `NewPairFromUser` returns an error. -/
theorem Signup_tokenless {σ : Type} (Status : Error → Nat)
    (bindData : GinContext → Option signupReq) (h : Handler σ) (w : σ) (c : GinContext)
    (req : signupReq) (w1 w2 : σ) (u1 : User) (t : Option TokenPair) (e : Error)
    (hb : bindData c = some req)
    (hS : h.UserService.Signup w c.RequestContext (newUser req) = (w1, u1, none))
    (hT : h.TokenService.NewPairFromUser w1 c.RequestContext u1 "" = (w2, t, some e)) :
    h.Signup Status bindData w c =
      { state := w2,
        calls := [Call.Signup c.RequestContext (newUser req),
                  Call.NewPairFromUser c.RequestContext u1 ""],
        response := some { status := Status e, body := [("error", Payload.err e)] } } := by
  simp [Handler.Signup, hb, hS, hT]

/-- The run of `Signup` when both services succeed. -/
theorem Signup_created {σ : Type} (Status : Error → Nat)
    (bindData : GinContext → Option signupReq) (h : Handler σ) (w : σ) (c : GinContext)
    (req : signupReq) (w1 w2 : σ) (u1 : User) (t : Option TokenPair)
    (hb : bindData c = some req)
    (hS : h.UserService.Signup w c.RequestContext (newUser req) = (w1, u1, none))
    (hT : h.TokenService.NewPairFromUser w1 c.RequestContext u1 "" = (w2, t, none)) :
    h.Signup Status bindData w c =
      { state := w2,
        calls := [Call.Signup c.RequestContext (newUser req),
                  Call.NewPairFromUser c.RequestContext u1 ""],
        response := some { status := 201, body := [("tokens", Payload.tokens t)] } } := by
  simp [Handler.Signup, hb, hS, hT, StatusCreated]

/-- C6.  On a request that reaches token issuance (binding gives `req` and
`UserService.Signup` returns no error), `Signup` makes exactly two service calls: first
`UserService.Signup` with the request context and the user built from the email and the
password of the request, then, once, `TokenService.NewPairFromUser` with the same context,
that same user object (the pointer `u`, read as `UserService.Signup` left it) and the empty
string as previous token id.  The state after the run is the one this application of
`NewPairFromUser` returns, and the response is the one its result calls for. -/
theorem signup_issues_tokens_once_for_the_signed_up_user {σ : Type} (Status : Error → Nat)
    (bindData : GinContext → Option signupReq) (h : Handler σ) (w : σ) (c : GinContext)
    (req : signupReq) (hb : bindData c = some req)
    (hS : (h.UserService.Signup w c.RequestContext (newUser req)).2.2 = none) :
    (newUser req).Email = req.Email ∧ (newUser req).Password = req.Password ∧
    (h.Signup Status bindData w c).calls =
      [Call.Signup c.RequestContext (newUser req),
       Call.NewPairFromUser c.RequestContext
         (h.UserService.Signup w c.RequestContext (newUser req)).2.1 ""] ∧
    (h.Signup Status bindData w c).state =
      (h.TokenService.NewPairFromUser
        (h.UserService.Signup w c.RequestContext (newUser req)).1 c.RequestContext
        (h.UserService.Signup w c.RequestContext (newUser req)).2.1 "").1 ∧
    (h.Signup Status bindData w c).response =
      some (match (h.TokenService.NewPairFromUser
          (h.UserService.Signup w c.RequestContext (newUser req)).1 c.RequestContext
          (h.UserService.Signup w c.RequestContext (newUser req)).2.1 "").2 with
        | (_, some e) => { status := Status e, body := [("error", Payload.err e)] }
        | (t, none) => { status := 201, body := [("tokens", Payload.tokens t)] }) := by
  refine ⟨rfl, rfl, ?_⟩
  rcases hS1 : h.UserService.Signup w c.RequestContext (newUser req) with ⟨w1, u1, _ | e⟩
  · rcases hT : h.TokenService.NewPairFromUser w1 c.RequestContext u1 "" with ⟨w2, t, _ | e2⟩
    · rw [Signup_created Status bindData h w c req w1 w2 u1 t hb hS1 hT]
      simp [hT]
    · rw [Signup_tokenless Status bindData h w c req w1 w2 u1 t e2 hb hS1 hT]
      simp [hT]
  · rw [hS1] at hS
    cases hS

/-- Instance of C6: the handler `sample.handlerOK` on a request that binds. -/
theorem signup_issues_tokens_once_witness :
    sample.bindData sample.goodRequest = some ⟨"bob@bob.com", "pwworksgreat123"⟩ ∧
    (sample.handlerOK.UserService.Signup 0 sample.goodRequest.RequestContext
      (newUser ⟨"bob@bob.com", "pwworksgreat123"⟩)).2.2 = none ∧
    (sample.handlerOK.Signup sample.status sample.bindData 0 sample.goodRequest).calls =
      [Call.Signup sample.background
         { User.zero with Email := "bob@bob.com", Password := "pwworksgreat123" },
       Call.NewPairFromUser sample.background
         { sample.bob with Password := "pwworksgreat123" } ""] ∧
    (sample.handlerOK.Signup sample.status sample.bindData 0 sample.goodRequest).state = 1 :=
  have h := signup_issues_tokens_once_for_the_signed_up_user sample.status sample.bindData
    sample.handlerOK 0 sample.goodRequest ⟨"bob@bob.com", "pwworksgreat123"⟩
    (by decide) (by decide)
  ⟨by decide, by decide, h.2.2.1.trans (by decide), h.2.2.2.1.trans (by decide)⟩

/-- C7.  `Signup` calls `TokenService.NewPairFromUser` if and only if binding succeeded and
`UserService.Signup` returned no error.  When binding fails no service is called: the state
is untouched and `Signup` writes no response.  When `UserService.Signup` returns an error
`e`, the token service is not called: `UserService.Signup` is the only call, the state is
the one it left, and the response has status `Status e` and body `error: e`.  When binding
succeeds and `UserService.Signup` returns no error, `NewPairFromUser` is applied to the
state and the user that `UserService.Signup` left: the state after the run is the one that
application returns and the response is the one its result calls for. -/
theorem signup_calls_token_service_iff_bound_and_signed_up {σ : Type} (Status : Error → Nat)
    (bindData : GinContext → Option signupReq) (h : Handler σ) (w : σ) (c : GinContext) :
    ((∃ x u p, Call.NewPairFromUser x u p ∈ (h.Signup Status bindData w c).calls) ↔
      ∃ req, bindData c = some req ∧
        (h.UserService.Signup w c.RequestContext (newUser req)).2.2 = none) ∧
    (bindData c = none →
      (h.Signup Status bindData w c).calls = [] ∧
      (h.Signup Status bindData w c).state = w ∧
      (h.Signup Status bindData w c).response = none) ∧
    (∀ req e, bindData c = some req →
      (h.UserService.Signup w c.RequestContext (newUser req)).2.2 = some e →
      (∀ x u p, Call.NewPairFromUser x u p ∉ (h.Signup Status bindData w c).calls) ∧
      (h.Signup Status bindData w c).calls = [Call.Signup c.RequestContext (newUser req)] ∧
      (h.Signup Status bindData w c).state =
        (h.UserService.Signup w c.RequestContext (newUser req)).1 ∧
      (h.Signup Status bindData w c).response =
        some { status := Status e, body := [("error", Payload.err e)] }) ∧
    (∀ req, bindData c = some req →
      (h.UserService.Signup w c.RequestContext (newUser req)).2.2 = none →
      Call.NewPairFromUser c.RequestContext
          (h.UserService.Signup w c.RequestContext (newUser req)).2.1 ""
        ∈ (h.Signup Status bindData w c).calls ∧
      (h.Signup Status bindData w c).state =
        (h.TokenService.NewPairFromUser
          (h.UserService.Signup w c.RequestContext (newUser req)).1 c.RequestContext
          (h.UserService.Signup w c.RequestContext (newUser req)).2.1 "").1 ∧
      (h.Signup Status bindData w c).response =
        some (match (h.TokenService.NewPairFromUser
            (h.UserService.Signup w c.RequestContext (newUser req)).1 c.RequestContext
            (h.UserService.Signup w c.RequestContext (newUser req)).2.1 "").2 with
          | (_, some e) => { status := Status e, body := [("error", Payload.err e)] }
          | (t, none) => { status := 201, body := [("tokens", Payload.tokens t)] })) := by
  cases hb : bindData c with
  | none => simp [Signup_unbound Status bindData h w c hb]
  | some req =>
    rcases hS : h.UserService.Signup w c.RequestContext (newUser req) with ⟨w1, u1, _ | e⟩
    · rcases hT : h.TokenService.NewPairFromUser w1 c.RequestContext u1 "" with ⟨w2, t, _ | e2⟩
      · rw [Signup_created Status bindData h w c req w1 w2 u1 t hb hS hT]
        refine ⟨⟨fun _ => ⟨req, rfl, by rw [hS]⟩,
          fun _ => ⟨c.RequestContext, u1, "", by simp⟩⟩, by simp, ?_, ?_⟩
        · intro req2 e hreq hne
          cases hreq
          rw [hS] at hne
          cases hne
        · intro req2 hreq _
          cases hreq
          simp [hS, hT]
      · rw [Signup_tokenless Status bindData h w c req w1 w2 u1 t e2 hb hS hT]
        refine ⟨⟨fun _ => ⟨req, rfl, by rw [hS]⟩,
          fun _ => ⟨c.RequestContext, u1, "", by simp⟩⟩, by simp, ?_, ?_⟩
        · intro req2 e hreq hne
          cases hreq
          rw [hS] at hne
          cases hne
        · intro req2 hreq _
          cases hreq
          simp [hS, hT]
    · rw [Signup_rejected Status bindData h w c req w1 u1 e hb hS]
      refine ⟨⟨fun hc => by simp at hc, ?_⟩, by simp, ?_, ?_⟩
      · rintro ⟨req2, hreq, hnone⟩
        cases hreq
        rw [hS] at hnone
        cases hnone
      · intro req2 e3 hreq hne
        cases hreq
        rw [hS] at hne
        cases hne
        simp [hS]
      · intro req2 hreq hnone
        cases hreq
        rw [hS] at hnone
        cases hnone

/-- Instance of C7: binding fails, `UserService.Signup` fails, and both succeed. -/
theorem signup_calls_token_service_iff_witness :
    (sample.bindData sample.badRequest = none ∧
      (sample.handlerOK.Signup sample.status sample.bindData 0 sample.badRequest).calls = [] ∧
      (sample.handlerOK.Signup sample.status sample.bindData 0 sample.badRequest).state = 0 ∧
      (sample.handlerOK.Signup sample.status sample.bindData 0 sample.badRequest).response
        = none) ∧
    ((sample.handlerConflict.UserService.Signup 0 sample.goodRequest.RequestContext
        (newUser ⟨"bob@bob.com", "pwworksgreat123"⟩)).2.2
        = some (Error.Conflict "email" "bob@bob.com") ∧
      (sample.handlerConflict.Signup sample.status sample.bindData 0
        sample.goodRequest).response =
        some { status := sample.status (Error.Conflict "email" "bob@bob.com"),
               body := [("error", Payload.err (Error.Conflict "email" "bob@bob.com"))] }) ∧
    ((sample.handlerOK.UserService.Signup 0 sample.goodRequest.RequestContext
        (newUser ⟨"bob@bob.com", "pwworksgreat123"⟩)).2.2 = none ∧
      (sample.handlerOK.Signup sample.status sample.bindData 0 sample.goodRequest).state = 1 ∧
      (sample.handlerOK.Signup sample.status sample.bindData 0 sample.goodRequest).response =
        some { status := 201,
               body := [("tokens", Payload.tokens (some ⟨"idToken", "refreshToken"⟩))] }) :=
  ⟨⟨by decide,
    (signup_calls_token_service_iff_bound_and_signed_up sample.status sample.bindData
      sample.handlerOK 0 sample.badRequest).2.1 (by decide)⟩,
   ⟨by decide,
    ((signup_calls_token_service_iff_bound_and_signed_up sample.status sample.bindData
      sample.handlerConflict 0 sample.goodRequest).2.2.1
        ⟨"bob@bob.com", "pwworksgreat123"⟩ (Error.Conflict "email" "bob@bob.com")
        (by decide) (by decide)).2.2.2⟩,
   have h := (signup_calls_token_service_iff_bound_and_signed_up sample.status
      sample.bindData sample.handlerOK 0 sample.goodRequest).2.2.2
        ⟨"bob@bob.com", "pwworksgreat123"⟩ (by decide) (by decide)
   ⟨by decide, h.2.1.trans (by decide), h.2.2.trans (by decide)⟩⟩

/-- C8.  `Signup` responds with status 201 and body `tokens: t` exactly when binding
succeeds, `UserService.Signup` returns no error and `NewPairFromUser` returns `(t, nil)`,
`t` being the pair of the token service as returned.  When `NewPairFromUser` returns an
error `e`, the response has status `Status e` and body `error: e`, with no member named
`tokens`. -/
theorem signup_responds_created_iff_tokens_issued {σ : Type} (Status : Error → Nat)
    (bindData : GinContext → Option signupReq) (h : Handler σ) (w : σ) (c : GinContext) :
    (∀ t, (h.Signup Status bindData w c).response =
        some { status := 201, body := [("tokens", Payload.tokens t)] } ↔
      ∃ req w1 u1, bindData c = some req ∧
        h.UserService.Signup w c.RequestContext (newUser req) = (w1, u1, none) ∧
        (h.TokenService.NewPairFromUser w1 c.RequestContext u1 "").2 = (t, none)) ∧
    (∀ req w1 u1 e, bindData c = some req →
      h.UserService.Signup w c.RequestContext (newUser req) = (w1, u1, none) →
      (h.TokenService.NewPairFromUser w1 c.RequestContext u1 "").2.2 = some e →
      (h.Signup Status bindData w c).response =
        some { status := Status e, body := [("error", Payload.err e)] } ∧
      ∀ r, (h.Signup Status bindData w c).response = some r →
        ∀ kv ∈ r.body, kv.1 ≠ "tokens") := by
  cases hb : bindData c with
  | none => simp [Signup_unbound Status bindData h w c hb]
  | some req =>
    rcases hS : h.UserService.Signup w c.RequestContext (newUser req) with ⟨w1, u1, _ | e⟩
    · rcases hT : h.TokenService.NewPairFromUser w1 c.RequestContext u1 "" with ⟨w2, t, _ | e2⟩
      · rw [Signup_created Status bindData h w c req w1 w2 u1 t hb hS hT]
        refine ⟨fun t2 => ⟨fun hr => ⟨req, w1, u1, rfl, hS, ?_⟩, ?_⟩, ?_⟩
        · simp only [Option.some.injEq, Response.mk.injEq, List.cons.injEq, Prod.mk.injEq,
            Payload.tokens.injEq, and_true, true_and] at hr
          rw [hT, hr]
        · rintro ⟨req2, w3, u3, hreq, hS2, hT2⟩
          cases hreq
          rw [hS] at hS2
          cases hS2
          rw [hT] at hT2
          cases hT2
          rfl
        · intro req2 w3 u3 e hreq hS2 hT2
          cases hreq
          rw [hS] at hS2
          cases hS2
          rw [hT] at hT2
          cases hT2
      · rw [Signup_tokenless Status bindData h w c req w1 w2 u1 t e2 hb hS hT]
        refine ⟨fun t2 => ⟨fun hr => ?_, ?_⟩, ?_⟩
        · simp at hr
        · rintro ⟨req2, w3, u3, hreq, hS2, hT2⟩
          cases hreq
          rw [hS] at hS2
          cases hS2
          rw [hT] at hT2
          cases hT2
        · intro req2 w3 u3 e hreq hS2 hT2
          cases hreq
          rw [hS] at hS2
          cases hS2
          rw [hT] at hT2
          cases hT2
          refine ⟨rfl, ?_⟩
          intro r hr kv hkv
          cases hr
          simp only [List.mem_singleton] at hkv
          subst hkv
          dsimp only
          decide
    · rw [Signup_rejected Status bindData h w c req w1 u1 e hb hS]
      refine ⟨fun t2 => ⟨fun hr => ?_, ?_⟩, ?_⟩
      · simp at hr
      · rintro ⟨req2, w3, u3, hreq, hS2, _⟩
        cases hreq
        rw [hS] at hS2
        cases hS2
      · intro req2 w3 u3 e3 hreq hS2
        cases hreq
        rw [hS] at hS2
        cases hS2

/-- Instance of C8: a run that ends with 201 and the tokens, and a run in which the token
service fails. -/
theorem signup_responds_created_witness :
    ((sample.handlerOK.Signup sample.status sample.bindData 0 sample.goodRequest).response =
        some { status := 201,
               body := [("tokens", Payload.tokens (some ⟨"idToken", "refreshToken"⟩))] }) ∧
    (sample.bindData sample.goodRequest = some ⟨"bob@bob.com", "pwworksgreat123"⟩ ∧
      (sample.handlerNoTokens.TokenService.NewPairFromUser 1
        sample.goodRequest.RequestContext
        { sample.bob with Password := "pwworksgreat123" } "").2.2 = some Error.Internal ∧
      (sample.handlerNoTokens.Signup sample.status sample.bindData 0
        sample.goodRequest).response =
        some { status := sample.status Error.Internal,
               body := [("error", Payload.err Error.Internal)] }) :=
  ⟨((signup_responds_created_iff_tokens_issued sample.status sample.bindData
      sample.handlerOK 0 sample.goodRequest).1 (some ⟨"idToken", "refreshToken"⟩)).mpr
      ⟨⟨"bob@bob.com", "pwworksgreat123"⟩, 1,
        { sample.bob with Password := "pwworksgreat123" }, by decide, by decide, by decide⟩,
   by decide, by decide,
   ((signup_responds_created_iff_tokens_issued sample.status sample.bindData
      sample.handlerNoTokens 0 sample.goodRequest).2
      ⟨"bob@bob.com", "pwworksgreat123"⟩ 1 { sample.bob with Password := "pwworksgreat123" }
      Error.Internal (by decide) (by decide) (by decide)).1⟩

end handler

/-! ## The PostgreSQL user repository and `UserService.Get` -/

namespace repository

open model

/-- C9.  `Create` returns nil exactly when the INSERT, that is the `GetContext` call running
it, returns no error.  When that call fails with a PostgreSQL error whose code name is
`unique_violation`, `Create` returns a Conflict error for `email` and `u.Email` (the field
being read after the call, from the user object as the call left it).  For every other
failure, a PostgreSQL error with another code name or any other error, it returns an
Internal error. -/
theorem create_maps_insert_outcome_to_error {σ : Type} (Name : GoString → GoString)
    (r : pgUserRepository σ) (w : σ) (ctx : Context) (u : User) :
    ((r.Create Name w ctx u).2.2 = none ↔
      (r.DB.GetContext w ctx u createQuery [.text u.Email, .text u.Password]).2.2 = none) ∧
    (r.Create Name w ctx u).2.1 =
      (r.DB.GetContext w ctx u createQuery [.text u.Email, .text u.Password]).2.1 ∧
    (∀ code,
      (r.DB.GetContext w ctx u createQuery [.text u.Email, .text u.Password]).2.2
        = some (.pq code) →
      Name code = "unique_violation" →
      (r.Create Name w ctx u).2.2 = some (.Conflict "email" (r.Create Name w ctx u).2.1.Email)) ∧
    (∀ code,
      (r.DB.GetContext w ctx u createQuery [.text u.Email, .text u.Password]).2.2
        = some (.pq code) →
      Name code ≠ "unique_violation" →
      (r.Create Name w ctx u).2.2 = some .Internal) ∧
    (∀ msg,
      (r.DB.GetContext w ctx u createQuery [.text u.Email, .text u.Password]).2.2
        = some (.other msg) →
      (r.Create Name w ctx u).2.2 = some .Internal) := by
  simp only [pgUserRepository.Create]
  rcases hG : r.DB.GetContext w ctx u createQuery [.text u.Email, .text u.Password]
    with ⟨w1, u1, _ | (code | msg)⟩
  · simp
  · by_cases hn : Name code = "unique_violation"
    · simp [hn]
    · simp [hn]
  · simp

/-- Instance of C9: the email is already taken, and `u.Email` is the email passed in. -/
theorem create_maps_insert_outcome_witness :
    (sample.takenDB.GetContext () sample.background sample.bob createQuery
        [.text sample.bob.Email, .text sample.bob.Password]).2.2 = some (.pq "23505") ∧
    sample.codeName "23505" = "unique_violation" ∧
    (pgUserRepository.Create sample.codeName { DB := sample.takenDB } () sample.background
        sample.bob).2.2 = some (.Conflict "email" "bob@bob.com") :=
  ⟨by decide, by decide,
   ((create_maps_insert_outcome_to_error sample.codeName { DB := sample.takenDB } ()
      sample.background sample.bob).2.2.1 "23505" (by decide) (by decide)).trans (by decide)⟩

/-- C10, as worded, fails: when the scan stops part-way (a NULL in the name column), the
query has failed and the user returned with the error carries the columns already stored,
so it is not the zero value. -/
theorem findByID_failed_query_user_not_zero :
    (sample.nullNameDB.GetContext () sample.background User.zero findByIDQuery
        [.uuid sample.uid]).2.2 ≠ none ∧
    (pgUserRepository.FindByID { DB := sample.nullNameDB } () sample.background
        sample.uid).2.1 ≠ some User.zero ∧
    (pgUserRepository.FindByID { DB := sample.nullNameDB } () sample.background
        sample.uid).2.2 = some (.NotFound "uid" sample.uid.String) := by
  decide

/-- C10, amended.  `FindByID` never returns a nil user: it returns the `User` it allocated
(zero-valued) and handed to `GetContext` as destination, in the state that call left it.
If the query succeeds the error is nil; if it fails for any reason the error is NotFound
for `uid` and `uid.String()`, and the user is zero-valued whenever the failed call did not
write to the destination.  `UserService.Get` returns this result unchanged. -/
theorem findByID_returns_destination_with_not_found {σ : Type} (Name : GoString → GoString)
    (FindByEmail : σ → Context → GoString → σ × Option User × Option Error)
    (r : pgUserRepository σ) (w : σ) (ctx : Context) (uid : UUID) :
    (r.FindByID w ctx uid).2.1 =
      some (r.DB.GetContext w ctx User.zero findByIDQuery [.uuid uid]).2.1 ∧
    ((r.DB.GetContext w ctx User.zero findByIDQuery [.uuid uid]).2.2 = none →
      (r.FindByID w ctx uid).2.2 = none) ∧
    ((r.DB.GetContext w ctx User.zero findByIDQuery [.uuid uid]).2.2 ≠ none →
      (r.FindByID w ctx uid).2.2 = some (.NotFound "uid" uid.String)) ∧
    ((r.DB.GetContext w ctx User.zero findByIDQuery [.uuid uid]).2.1 = User.zero →
      (r.FindByID w ctx uid).2.1 = some User.zero) ∧
    service.UserService.Get { UserRepository := NewUserRepository Name FindByEmail r.DB }
      w ctx uid = r.FindByID w ctx uid := by
  simp only [service.UserService.Get, NewUserRepository, pgUserRepository.FindByID]
  rcases hG : r.DB.GetContext w ctx User.zero findByIDQuery [.uuid uid]
    with ⟨w1, u1, _ | e⟩ <;> simp [hG]

/-- Instance of C10 amended: an unreachable database gives the zero user and NotFound; a
database holding the row gives the row and no error. -/
theorem findByID_returns_destination_witness :
    ((sample.downDB.GetContext () sample.background User.zero findByIDQuery
        [.uuid sample.uid]).2.2 ≠ none ∧
      (sample.downDB.GetContext () sample.background User.zero findByIDQuery
        [.uuid sample.uid]).2.1 = User.zero ∧
      (pgUserRepository.FindByID { DB := sample.downDB } () sample.background
        sample.uid).2.2 = some (.NotFound "uid" sample.uid.String) ∧
      (pgUserRepository.FindByID { DB := sample.downDB } () sample.background
        sample.uid).2.1 = some User.zero) ∧
    ((sample.goodDB.GetContext () sample.background User.zero findByIDQuery
        [.uuid sample.uid]).2.2 = none ∧
      (pgUserRepository.FindByID { DB := sample.goodDB } () sample.background
        sample.uid).2.2 = none) :=
  ⟨⟨by decide, by decide,
    (findByID_returns_destination_with_not_found sample.codeName
      (fun w _ _ => (w, none, none)) { DB := sample.downDB } () sample.background
      sample.uid).2.2.1 (by decide),
    (findByID_returns_destination_with_not_found sample.codeName
      (fun w _ _ => (w, none, none)) { DB := sample.downDB } () sample.background
      sample.uid).2.2.2.1 (by decide)⟩,
   by decide,
   (findByID_returns_destination_with_not_found sample.codeName
      (fun w _ _ => (w, none, none)) { DB := sample.goodDB } () sample.background
      sample.uid).2.1 (by decide)⟩

end repository

/-! ## Token issuance -/

namespace service

open model

/-- The time to live handed to the store is the refresh lifetime. -/
theorem refreshClaims_ttl {σ : Type} (s : TokenService σ) (now : Int) (tokenID : GoString)
    (u : User) : (s.refreshClaims now tokenID u).ExpiresAt - now = s.RefreshExpirationSecs := by
  simp [TokenService.refreshClaims]

/-- The run of `NewPairFromUser` when the identity token cannot be signed. -/
theorem NewPairFromUser_unsigned_id {σ : Type} (s : TokenService σ) (now : Int)
    (tokenID : GoString) (w : σ) (ctx : Context) (u : User) (p : GoString)
    (h1 : s.signIDToken (s.idClaims now u) = none) :
    s.NewPairFromUser now tokenID w ctx u p =
      { state := w, calls := [], pair := none, err := some .Internal } := by
  simp [TokenService.NewPairFromUser, h1]

/-- The run of `NewPairFromUser` when the refresh token cannot be signed. -/
theorem NewPairFromUser_unsigned_refresh {σ : Type} (s : TokenService σ) (now : Int)
    (tokenID : GoString) (w : σ) (ctx : Context) (u : User) (p : GoString) (idToken : GoString)
    (h1 : s.signIDToken (s.idClaims now u) = some idToken)
    (h2 : s.signRefreshToken (s.refreshClaims now tokenID u) = none) :
    s.NewPairFromUser now tokenID w ctx u p =
      { state := w, calls := [], pair := none, err := some .Internal } := by
  simp [TokenService.NewPairFromUser, h1, h2]

/-- The run of `NewPairFromUser` when the store refuses the new identifier. -/
theorem NewPairFromUser_unregistered {σ : Type} (s : TokenService σ) (now : Int)
    (tokenID : GoString) (w w1 : σ) (ctx : Context) (u : User) (p : GoString)
    (idToken refreshToken : GoString) (e : Error)
    (h1 : s.signIDToken (s.idClaims now u) = some idToken)
    (h2 : s.signRefreshToken (s.refreshClaims now tokenID u) = some refreshToken)
    (h3 : s.TokenRepository.SetRefreshToken w ctx u.UID.String tokenID s.RefreshExpirationSecs
      = (w1, some e)) :
    s.NewPairFromUser now tokenID w ctx u p =
      { state := w1,
        calls := [.SetRefreshToken ctx u.UID.String tokenID s.RefreshExpirationSecs (some e)],
        pair := none, err := some .Internal } := by
  simp [TokenService.NewPairFromUser, h1, h2, refreshClaims_ttl, h3]

/-- The run of `NewPairFromUser` when the new identifier is registered and a previous
identifier was given. -/
theorem NewPairFromUser_rotated {σ : Type} (s : TokenService σ) (now : Int)
    (tokenID : GoString) (w w1 w2 : σ) (ctx : Context) (u : User) (p : GoString)
    (idToken refreshToken : GoString) (e2 : Option Error) (hp : p ≠ "")
    (h1 : s.signIDToken (s.idClaims now u) = some idToken)
    (h2 : s.signRefreshToken (s.refreshClaims now tokenID u) = some refreshToken)
    (h3 : s.TokenRepository.SetRefreshToken w ctx u.UID.String tokenID s.RefreshExpirationSecs
      = (w1, none))
    (h4 : s.TokenRepository.DeleteRefreshToken w1 ctx u.UID.String p = (w2, e2)) :
    s.NewPairFromUser now tokenID w ctx u p =
      { state := w2,
        calls := [.SetRefreshToken ctx u.UID.String tokenID s.RefreshExpirationSecs none,
                  .DeleteRefreshToken ctx u.UID.String p e2],
        pair := some { IDToken := idToken, RefreshToken := refreshToken },
        err := none } := by
  simp [TokenService.NewPairFromUser, h1, h2, refreshClaims_ttl, h3, hp, h4]

/-- C1.  If the store's `SetRefreshToken`, called with the context, `u.UID.String()`, the
new token identifier and the time to live, returns an error, then `NewPairFromUser` returns
a non-nil error and no token pair, and no `DeleteRefreshToken` call is made. -/
theorem set_failure_fails_issuance_without_delete {σ : Type} (s : TokenService σ) (now : Int)
    (tokenID : GoString) (w : σ) (ctx : Context) (u : User) (p : GoString) (e : Error)
    (hset : (s.TokenRepository.SetRefreshToken w ctx u.UID.String tokenID
      s.RefreshExpirationSecs).2 = some e) :
    (s.NewPairFromUser now tokenID w ctx u p).err ≠ none ∧
    (s.NewPairFromUser now tokenID w ctx u p).pair = none ∧
    ∀ call ∈ (s.NewPairFromUser now tokenID w ctx u p).calls, call.isDelete = false := by
  cases h1 : s.signIDToken (s.idClaims now u) with
  | none => simp [NewPairFromUser_unsigned_id s now tokenID w ctx u p h1]
  | some idToken =>
    cases h2 : s.signRefreshToken (s.refreshClaims now tokenID u) with
    | none => simp [NewPairFromUser_unsigned_refresh s now tokenID w ctx u p idToken h1 h2]
    | some refreshToken =>
      rcases h3 : s.TokenRepository.SetRefreshToken w ctx u.UID.String tokenID
        s.RefreshExpirationSecs with ⟨w1, _ | e1⟩
      · rw [h3] at hset
        cases hset
      · rw [NewPairFromUser_unregistered s now tokenID w w1 ctx u p idToken refreshToken e1
          h1 h2 h3]
        simp [RepoCall.isDelete]

/-- Instance of C1: the store `sample.brokenStore`, with a previous token id given. -/
theorem set_failure_fails_issuance_witness :
    (sample.brokenStore.SetRefreshToken [] sample.background sample.bob.UID.String "new-id"
        (sample.tokenService sample.brokenStore).RefreshExpirationSecs).2
      = some (.foreign "Error setting refresh token") ∧
    ((sample.tokenService sample.brokenStore).NewPairFromUser 1700000000 "new-id" []
        sample.background sample.bob "old-id").err ≠ none ∧
    ((sample.tokenService sample.brokenStore).NewPairFromUser 1700000000 "new-id" []
        sample.background sample.bob "old-id").pair = none ∧
    ∀ call ∈ ((sample.tokenService sample.brokenStore).NewPairFromUser 1700000000 "new-id" []
        sample.background sample.bob "old-id").calls, call.isDelete = false :=
  ⟨by decide,
   set_failure_fails_issuance_without_delete (sample.tokenService sample.brokenStore)
     1700000000 "new-id" [] sample.background sample.bob "old-id"
     (.foreign "Error setting refresh token") (by decide)⟩

/-- C2, as worded, fails: with a non-empty previous token id and a store whose
`SetRefreshToken` succeeds at the arguments of the run, a token service that cannot sign
makes no `DeleteRefreshToken` call and returns an error and no pair. -/
theorem keyless_rotation_makes_no_delete_call :
    (sample.keylessTokenService.TokenRepository.SetRefreshToken
        [(sample.bob.UID.String, "old-id")] sample.background sample.bob.UID.String "new-id"
        sample.keylessTokenService.RefreshExpirationSecs).2 = none ∧
    ((sample.keylessTokenService.NewPairFromUser 1700000000 "new-id"
        [(sample.bob.UID.String, "old-id")] sample.background sample.bob
        "old-id").calls.filter RepoCall.isDelete).length = 0 ∧
    (sample.keylessTokenService.NewPairFromUser 1700000000 "new-id"
        [(sample.bob.UID.String, "old-id")] sample.background sample.bob "old-id").pair
      = none ∧
    (sample.keylessTokenService.NewPairFromUser 1700000000 "new-id"
        [(sample.bob.UID.String, "old-id")] sample.background sample.bob "old-id").err
      = some .Internal := by
  decide

/-- C2, amended.  With a non-empty previous token id, if both tokens are signed and the
store's `SetRefreshToken`, called with the context, `u.UID.String()`, the new identifier
and the refresh lifetime, returns nil, then the store calls of the run are exactly that
`SetRefreshToken` call followed by one `DeleteRefreshToken` call with the context,
`u.UID.String()` and the previous id, made on the state `SetRefreshToken` left; the state
after the run is the one the deletion left; and the operation returns the pair of the two
signed tokens and no error, whatever the deletion returned. -/
theorem rotation_deletes_previous_once_after_set {σ : Type} (s : TokenService σ) (now : Int)
    (tokenID : GoString) (w : σ) (ctx : Context) (u : User) (p : GoString)
    (idToken refreshToken : GoString) (hp : p ≠ "")
    (h1 : s.signIDToken (s.idClaims now u) = some idToken)
    (h2 : s.signRefreshToken (s.refreshClaims now tokenID u) = some refreshToken)
    (hset : (s.TokenRepository.SetRefreshToken w ctx u.UID.String tokenID
      s.RefreshExpirationSecs).2 = none) :
    (s.NewPairFromUser now tokenID w ctx u p).calls =
      [.SetRefreshToken ctx u.UID.String tokenID s.RefreshExpirationSecs none,
       .DeleteRefreshToken ctx u.UID.String p
         (s.TokenRepository.DeleteRefreshToken
           (s.TokenRepository.SetRefreshToken w ctx u.UID.String tokenID
             s.RefreshExpirationSecs).1 ctx u.UID.String p).2] ∧
    ((s.NewPairFromUser now tokenID w ctx u p).calls.filter RepoCall.isDelete).length = 1 ∧
    (s.NewPairFromUser now tokenID w ctx u p).state =
      (s.TokenRepository.DeleteRefreshToken
        (s.TokenRepository.SetRefreshToken w ctx u.UID.String tokenID
          s.RefreshExpirationSecs).1 ctx u.UID.String p).1 ∧
    (s.NewPairFromUser now tokenID w ctx u p).pair =
      some { IDToken := idToken, RefreshToken := refreshToken } ∧
    (s.NewPairFromUser now tokenID w ctx u p).err = none := by
  rcases h3 : s.TokenRepository.SetRefreshToken w ctx u.UID.String tokenID
    s.RefreshExpirationSecs with ⟨w1, _ | e1⟩
  · rcases h4 : s.TokenRepository.DeleteRefreshToken w1 ctx u.UID.String p with ⟨w2, e2⟩
    rw [NewPairFromUser_rotated s now tokenID w w1 w2 ctx u p idToken refreshToken e2 hp
      h1 h2 h3 h4]
    simp [RepoCall.isDelete, h4]
  · rw [h3] at hset
    cases hset

/-- Instance of C2 amended: rotation of `old-id` on the in-memory store, which held that
id; afterwards the store holds the new id only. -/
theorem rotation_deletes_previous_once_witness :
    (("old-id" : GoString) ≠ "" ∧
      (sample.memoryStore.SetRefreshToken [(sample.bob.UID.String, "old-id")]
        sample.background sample.bob.UID.String "new-id"
        (sample.tokenService sample.memoryStore).RefreshExpirationSecs).2 = none) ∧
    ((sample.tokenService sample.memoryStore).NewPairFromUser 1700000000 "new-id"
        [(sample.bob.UID.String, "old-id")] sample.background sample.bob "old-id").calls =
      [.SetRefreshToken sample.background sample.bob.UID.String "new-id" 187200 none,
       .DeleteRefreshToken sample.background sample.bob.UID.String "old-id" none] ∧
    ((sample.tokenService sample.memoryStore).NewPairFromUser 1700000000 "new-id"
        [(sample.bob.UID.String, "old-id")] sample.background sample.bob "old-id").state =
      [(sample.bob.UID.String, ("new-id" : GoString))] ∧
    ((sample.tokenService sample.memoryStore).NewPairFromUser 1700000000 "new-id"
        [(sample.bob.UID.String, "old-id")] sample.background sample.bob "old-id").pair =
      some ⟨"id:bob@bob.com", "refresh:new-id"⟩ :=
  have h := rotation_deletes_previous_once_after_set (sample.tokenService sample.memoryStore)
    1700000000 "new-id" [(sample.bob.UID.String, "old-id")] sample.background sample.bob
    "old-id" "id:bob@bob.com" "refresh:new-id" (by decide) (by decide) (by decide)
    (by decide)
  ⟨⟨by decide, by decide⟩, h.1.trans (by decide), h.2.2.1.trans (by decide), h.2.2.2.1⟩

end service

end Account
